import Mathlib

/-!
Verification of the `ExtensionChecker` React component
(src/src/ExtensionChecker.tsx) against its natural-language specification.

The development shallowly embeds the component:

* the detection engine `checkExtensions` (source lines 8-28) becomes a pure
  function parameterised by the execution environment (`hasWindow`, standing
  for `typeof window !== "undefined"`) and by an oracle assigning each probe
  its outcome (`ok` response, non-ok response, or a thrown error);
* the unwanted-set filter (source lines 189-191 and 224-226) becomes
  `filterUnwanted`;
* the presentation state machine (the component's `useState` fields together
  with `checkAllExtensions`, the interval effect, the auto-hide effect and the
  close button) becomes a labelled transition system `step` on `MState`,
  where an event is an invocation of `checkAllExtensions` (`fire`), the
  settling of an in-flight round's `await` (`settle`), a click on the close
  button (`dismissClick`), or the auto-hide timeout firing (`autoHide`);
* the auto-hide `useEffect` (source lines 213-221) additionally gets a small
  dedicated timer model (`HideTimer`/`hStep`) that tracks the scheduled
  `setTimeout` through renders, firings and unmount, to express timer
  cancellation.
-/

/-! ## Data model: catalog entries (source lines 31-36, 148-156) -/

/-- An entry of the extension catalog, mirroring the `Extension` interface:
a Chrome extension id, a probe file path, a display name and an identifier. -/
structure Extension where
  id : String
  file : String
  name : String
  identifier : String
deriving DecidableEq, Repr

/-- The component's internal catalog `targetExtensions` (source lines 148-156):
a single entry for the PayPal Honey extension. -/
def targetExtensions : List Extension :=
  [{ id := "bmnlcjabgnpnenekpadlanbbkooimhnj",
     name := "PayPal Honey",
     file := "checkoutPaypal/merchantSPBContent.js",
     identifier := "honey" }]

/-! ## Detection engine (source lines 8-28) -/

/-- Outcome of one `fetch` probe: the response resolved with an ok status,
resolved with a non-ok status, or the fetch threw (network error, CORS
rejection, blocked request, ...). -/
inductive ProbeOutcome where
  | ok : ProbeOutcome
  | notOk : ProbeOutcome
  | threw : ProbeOutcome
deriving DecidableEq, Repr

/-- The probe URL built at source line 15:
`chrome-extension://` followed by the id, a slash and the file path. -/
def probeUrl (e : Extension) : String :=
  "chrome-extension://" ++ e.id ++ "/" ++ e.file

/-- The bare `fetch` of source line 17, before the surrounding try/catch:
it either resolves with a response whose `ok` flag is `true` or `false`, or
rejects with an error. -/
def fetchProbe (oc : ProbeOutcome) : Except String Bool :=
  match oc with
  | ProbeOutcome.ok => Except.ok true
  | ProbeOutcome.notOk => Except.ok false
  | ProbeOutcome.threw => Except.error "fetch failed"

/-- The body of the `Promise.all` callback at source lines 14-23: try the
fetch, return the display name on an ok response and `null` otherwise, and
map any thrown error to `null` in the catch block. -/
def probeOne (e : Extension) (oc : ProbeOutcome) : Except String (Option String) :=
  match fetchProbe oc with
  | Except.ok resp => Except.ok (if resp then some e.name else none)
  | Except.error _ => Except.ok none

/-- `Promise.all` over the per-entry probes: it resolves with the list of all
settled values, and rejects as soon as any element rejects. -/
def promiseAll (xs : List (Except String (Option String))) :
    Except String (List (Option String)) :=
  match xs with
  | [] => Except.ok []
  | x :: rest =>
    match x with
    | Except.error e => Except.error e
    | Except.ok v =>
      match promiseAll rest with
      | Except.error e => Except.error e
      | Except.ok l => Except.ok (v :: l)

/-- The detection engine `checkExtensions` (source lines 8-28), instrumented
with the list of probe URLs it fetches. `hasWindow` is false when
`typeof window === "undefined"`; in that case the function returns the empty
list at line 11 before any probe is issued, so the URL log is empty. Otherwise
every catalog entry is probed concurrently (line 13), each probe mapping to
its display name on an ok response and to `null` on a non-ok response or a
thrown error, and the nulls are filtered out at line 27. -/
def checkExtensionsTrace (hasWindow : Bool) (catalog : List Extension)
    (oc : Extension → ProbeOutcome) :
    Except String (List String) × List String :=
  if hasWindow = false then (Except.ok [], [])
  else
    (match promiseAll (catalog.map (fun e => probeOne e (oc e))) with
     | Except.ok results => Except.ok (results.filterMap id)
     | Except.error e => Except.error e,
     catalog.map probeUrl)

/-- The result of `checkExtensions` alone: the first component of the
instrumented run. -/
def checkExtensions (hasWindow : Bool) (catalog : List Extension)
    (oc : Extension → ProbeOutcome) : Except String (List String) :=
  (checkExtensionsTrace hasWindow catalog oc).1

/-- The URLs fetched during a run of `checkExtensions`: the second component
of the instrumented run. -/
def probesIssued (hasWindow : Bool) (catalog : List Extension)
    (oc : Extension → ProbeOutcome) : List String :=
  (checkExtensionsTrace hasWindow catalog oc).2

/-! ## Unwanted-set filter (source lines 189-191 and 224-226) -/

/-- The filtering step `installed.filter((ext) => unwantedExtensions.includes(ext))`,
applied both inside `checkAllExtensions` (lines 189-191) and at render time
(lines 224-226). -/
def filterUnwanted (installed : List String) (unwanted : List String) : List String :=
  installed.filter (fun ext => unwanted.contains ext)

/-! ## Basic lemmas about the detection engine -/

/-- The per-entry probe never rejects: the try/catch at lines 16-22 maps every
thrown error to a resolved `null`. -/
theorem probeOne_ok (e : Extension) (oc : ProbeOutcome) :
    probeOne e oc = Except.ok (if oc = ProbeOutcome.ok then some e.name else none) := by
  cases oc <;> rfl

/-- `Promise.all` over probes that all resolve, resolves with the list of
their values. -/
theorem promiseAll_map_probeOne (catalog : List Extension)
    (oc : Extension → ProbeOutcome) :
    promiseAll (catalog.map (fun e => probeOne e (oc e)))
      = Except.ok (catalog.map
          (fun e => if oc e = ProbeOutcome.ok then some e.name else none)) := by
  induction catalog with
  | nil => rfl
  | cons e rest ih =>
    simp only [probeOne_ok] at ih
    simp only [List.map_cons, promiseAll, probeOne_ok, ih]

/-- Closed-form value of the detection engine in a browser context: it
resolves with exactly the display names of the catalog entries whose probe
outcome is `ok`, in catalog order. -/
theorem checkExtensions_eq (catalog : List Extension)
    (oc : Extension → ProbeOutcome) :
    checkExtensions true catalog oc
      = Except.ok ((catalog.filter (fun e => oc e = ProbeOutcome.ok)).map
          Extension.name) := by
  unfold checkExtensions checkExtensionsTrace
  simp only [Bool.true_eq_false, if_false, promiseAll_map_probeOne]
  congr 1
  induction catalog with
  | nil => rfl
  | cons e rest ih =>
    by_cases h : oc e = ProbeOutcome.ok
    · simp [h, ih]
    · simp [h, ih]

/-! ## Claims about the detection engine and the filter -/

/-- C3 — Detection correctness and failure swallowing: for every catalog and
every assignment of probe outcomes (ok, non-ok status, thrown error),
`checkExtensions` resolves with exactly the display names of the entries whose
probe resolved with an ok status; every non-ok or throwing probe is mapped to
absent; and for every environment the function never rejects (the try/catch of
lines 16-22 swallows every failure before `Promise.all` can observe it). -/
theorem c3_detection_correctness (catalog : List Extension)
    (oc : Extension → ProbeOutcome) :
    checkExtensions true catalog oc
      = Except.ok ((catalog.filter (fun e => oc e = ProbeOutcome.ok)).map
          Extension.name)
    ∧ ∀ w : Bool, ∃ r : List String, checkExtensions w catalog oc = Except.ok r := by
  refine ⟨checkExtensions_eq catalog oc, ?_⟩
  intro w
  cases w with
  | false => exact ⟨[], rfl⟩
  | true => exact ⟨_, checkExtensions_eq catalog oc⟩

/-- C7 — No-context short-circuit: with no addressable browser context
(`typeof window === "undefined"`, line 11), `checkExtensions` returns the
empty list and issues no probe, for every catalog, including non-empty ones. -/
theorem c7_no_window_short_circuit (catalog : List Extension)
    (oc : Extension → ProbeOutcome) :
    checkExtensions false catalog oc = Except.ok []
    ∧ probesIssued false catalog oc = [] := by
  exact ⟨rfl, rfl⟩

/-- C9 — Catalog-ordered result: the list `checkExtensions` resolves with is
not an arbitrary unordered set but the catalog-ordered subsequence of the
catalog's display names whose probes succeeded (`Promise.all` preserves the
order of line 13's `map`, and line 27's `filter` keeps that order), and
consequently the downstream unwanted-match list is a catalog-ordered
subsequence of the catalog's display names as well. -/
theorem c9_catalog_ordered_result (catalog : List Extension)
    (oc : Extension → ProbeOutcome) (unwanted : List String) :
    checkExtensions true catalog oc
      = Except.ok ((catalog.filter (fun e => oc e = ProbeOutcome.ok)).map
          Extension.name)
    ∧ ((catalog.filter (fun e => oc e = ProbeOutcome.ok)).map
          Extension.name).Sublist (catalog.map Extension.name)
    ∧ (filterUnwanted ((catalog.filter (fun e => oc e = ProbeOutcome.ok)).map
          Extension.name) unwanted).Sublist (catalog.map Extension.name) := by
  have hsub :
      ((catalog.filter (fun e => oc e = ProbeOutcome.ok)).map
        Extension.name).Sublist (catalog.map Extension.name) :=
    (List.filter_sublist catalog).map Extension.name
  refine ⟨checkExtensions_eq catalog oc, hsub, ?_⟩
  exact (List.filter_sublist _).trans hsub

/-- C4 — Unwanted-set filter: the filtering step is a pure function; applied
to a detected list that is a catalog-ordered selection, it yields the
catalog-ordered subsequence of the detected names that are members of the
unwanted list; permuting the unwanted list does not change the result; and on
catalog order `[A, B, C]` with detected `[A, B]` and unwanted
`["B", "A", "C"]` the result is `["A", "B"]`. -/
theorem c4_filter_catalog_ordered (catalog : List Extension)
    (p : Extension → Bool) (detected u1 u2 unwanted : List String) :
    filterUnwanted ((catalog.filter p).map Extension.name) unwanted
      = (catalog.filter (fun e => unwanted.contains e.name && p e)).map
          Extension.name
    ∧ (u1.Perm u2 → filterUnwanted detected u1 = filterUnwanted detected u2)
    ∧ filterUnwanted ["A", "B"] ["B", "A", "C"] = ["A", "B"] := by
  refine ⟨?_, ?_, by decide⟩
  · unfold filterUnwanted
    rw [List.filter_map, List.filter_filter]
    rfl
  · intro hperm
    unfold filterUnwanted
    refine List.filter_congr ?_
    intro a _
    have h1 : u1.contains a = true ↔ a ∈ u1 := List.elem_iff
    have h2 : u2.contains a = true ↔ a ∈ u2 := List.elem_iff
    by_cases hm : a ∈ u1
    · rw [h1.mpr hm, h2.mpr (hperm.mem_iff.mp hm)]
    · have hm2 : a ∉ u2 := fun hx => hm (hperm.mem_iff.mpr hx)
      have e1 : u1.contains a = false := by
        cases hc : u1.contains a with
        | false => rfl
        | true => exact absurd (h1.mp hc) hm
      have e2 : u2.contains a = false := by
        cases hc : u2.contains a with
        | false => rfl
        | true => exact absurd (h2.mp hc) hm2
      rw [e1, e2]

/-- Witness for C4 at concrete inputs: the one-entry catalog, the predicate
selecting everything, and the permuted unwanted lists of the spec's example. -/
theorem c4_filter_catalog_ordered_witness :
    filterUnwanted ["A", "B"] ["B", "A", "C"]
      = filterUnwanted ["A", "B"] ["A", "B", "C"] := by
  exact (c4_filter_catalog_ordered targetExtensions (fun _ => true)
    ["A", "B"] ["B", "A", "C"] ["A", "B", "C"] []).2.1 (by decide)

/-! ## Presentation state machine (source lines 163-235) -/

/-- The five display modes of the discriminated props union (lines 42-142). -/
inductive DisplayMode where
  | silent : DisplayMode
  | alert : DisplayMode
  | banner : DisplayMode
  | modal : DisplayMode
  | block : DisplayMode
deriving DecidableEq, Repr

/-- The configuration the state machine reads: the display mode, the
caller-supplied unwanted list, and `autoHideDuration` (`none` when the prop is
omitted, `some d` when it is passed the number `d`). -/
structure Props where
  displayMode : DisplayMode
  unwantedExtensions : List String
  autoHideDuration : Option Nat
deriving DecidableEq, Repr

/-- The component's mutable state: the four `useState` fields of lines
174-177, plus bookkeeping that records the observable history — `inFlight`
holds the resolved results of the `checkAllExtensions` invocations whose
`await` at line 184 has not yet settled (oldest first), `notifications` logs
each execution of the detection branch at lines 194-200 with the list passed
to `onDetect`, and `everCompleted` records whether any round has ever run to
completion. -/
structure MState where
  checkingExtensions : Bool
  installedExtensions : List String
  showMessage : Bool
  hasShownMessage : Bool
  inFlight : List (List String)
  notifications : List (List String)
  everCompleted : Bool
deriving DecidableEq, Repr

/-- The initial state produced by the `useState` initialisers at lines
174-177. -/
def initialState : MState :=
  { checkingExtensions := false
    installedExtensions := []
    showMessage := false
    hasShownMessage := false
    inFlight := []
    notifications := []
    everCompleted := false }

/-- The auto-hide `useEffect` body at lines 213-221, as the `setTimeout`
delay it schedules: a hide is scheduled exactly when
`autoHideDuration && showMessage && displayMode !== "block"` is truthy, i.e.
when the duration is present and non-zero (`0` is falsy in JavaScript), the
message is showing, and the mode is not `block`. -/
def autoHideEffect (duration : Option Nat) (visible : Bool)
    (mode : DisplayMode) : Option Nat :=
  match duration with
  | none => none
  | some d =>
    if d ≠ 0 ∧ visible = true ∧ mode ≠ DisplayMode.block then some d else none

/-- The continuation of `checkAllExtensions` after the `await` at line 184
settles with `installed` (lines 185-200): store the result, clear the
checking flag, filter against the unwanted list, and if any unwanted
extension was found, show the message, latch `hasShownMessage`, and invoke
`onDetect` with the match list. -/
def finishRound (P : Props) (s : MState) (installed : List String) : MState :=
  let s1 := { s with installedExtensions := installed,
                     checkingExtensions := false,
                     everCompleted := true }
  let detectedUnwanted := filterUnwanted installed P.unwantedExtensions
  if detectedUnwanted.length > 0 then
    { s1 with showMessage := true,
              hasShownMessage := true,
              notifications := s1.notifications ++ [detectedUnwanted] }
  else s1

/-- The events the component reacts to. `fire w installed` is an invocation
of `checkAllExtensions` (the immediate call on mount or an interval firing,
lines 203-210) in an environment where `w` says whether `window` is defined
and whose probes, once awaited, will resolve to `installed` (the value
`checkExtensions targetExtensions` settles with). `settle` is the settling of
the oldest in-flight `await`. `dismissClick` is a click on the close button
(lines 268-284). `autoHide` is the firing of the auto-hide timeout (lines
213-221). -/
inductive Ev where
  | fire : Bool → List String → Ev
  | settle : Ev
  | dismissClick : Ev
  | autoHide : Ev
deriving DecidableEq, Repr

/-- One transition of the component. `fire` models lines 179-184: the entry
guard returns early when `window` is undefined or `hasShownMessage` is
already true; otherwise the checking flag is set and a round goes in flight.
`settle` runs the post-`await` continuation `finishRound` on the oldest
in-flight round. `dismissClick` models the close button, which is rendered
only when the display mode is not `block` (line 268) and sets `showMessage`
to false (line 270). `autoHide` models the scheduled `setTimeout` callback
(line 216), which exists only when the auto-hide effect armed it. -/
def step (P : Props) (s : MState) : Ev → MState
  | Ev.fire w installed =>
    if w = false ∨ s.hasShownMessage = true then s
    else { s with checkingExtensions := true,
                  inFlight := s.inFlight ++ [installed] }
  | Ev.settle =>
    match s.inFlight with
    | [] => s
    | installed :: rest => finishRound P { s with inFlight := rest } installed
  | Ev.dismissClick =>
    if P.displayMode ≠ DisplayMode.block then { s with showMessage := false }
    else s
  | Ev.autoHide =>
    if (autoHideEffect P.autoHideDuration s.showMessage P.displayMode).isSome
    then { s with showMessage := false }
    else s

/-- A run of the component: fold the step function over a list of events. -/
def run (P : Props) (s : MState) (evs : List Ev) : MState :=
  evs.foldl (step P) s

/-- The unwanted-match list computed at render time (lines 224-226). -/
def currentMatches (P : Props) (s : MState) : List String :=
  filterUnwanted s.installedExtensions P.unwantedExtensions

/-- Whether the close button is offered, from line 268: it is rendered for
every display mode except `block`. -/
def dismissButtonShown (mode : DisplayMode) : Bool :=
  decide (mode ≠ DisplayMode.block)

/-- The component's render-nothing decision as the code writes it: the early
return at lines 229-235 (`checkingExtensions || !showMessage ||
detectedUnwantedExtensions.length === 0`) together with the `silent` case of
the switch at lines 300-302. -/
def rendersNothing (P : Props) (s : MState) : Bool :=
  s.checkingExtensions || !s.showMessage
    || decide ((currentMatches P s).length = 0)
    || decide (P.displayMode = DisplayMode.silent)

/-- The render-nothing decision as the specification words it: render nothing
if `isVisible` is false, or if a round is currently in flight and none has
ever completed, or if the current match list is empty, and always in silent
mode. -/
def specRendersNothing (P : Props) (s : MState) : Bool :=
  !s.showMessage
    || (decide (s.inFlight ≠ []) && !s.everCompleted)
    || decide ((currentMatches P s).length = 0)
    || decide (P.displayMode = DisplayMode.silent)

/-! ## Reachability invariants of the state machine -/

/-- States the component can actually be in: a showing message implies the
latch is set and some round completed, and while the checking flag is up the
message is not showing (the flag is raised only behind the entry guard, which
requires the latch to be clear). -/
def ReachInv (s : MState) : Prop :=
  (s.showMessage = true → s.hasShownMessage = true ∧ s.everCompleted = true)
  ∧ (s.checkingExtensions = true → s.showMessage = false)

/-- The initial state satisfies the invariant. -/
theorem inv_initialState : ReachInv initialState := by
  constructor <;> intro h <;> simp [initialState] at h

/-- Every transition preserves the invariant. -/
theorem inv_step (P : Props) (s : MState) (ev : Ev) (h : ReachInv s) :
    ReachInv (step P s ev) := by
  obtain ⟨h1, h2⟩ := h
  cases ev with
  | fire w installed =>
    by_cases hg : w = false ∨ s.hasShownMessage = true
    · simpa [step, hg] using ⟨h1, h2⟩
    · have hh : s.hasShownMessage = false := by
        cases hx : s.hasShownMessage
        · rfl
        · exact absurd (Or.inr hx) hg
      have hs : s.showMessage = false := by
        cases hx : s.showMessage
        · rfl
        · exact absurd (h1 hx).1 (by simp [hh])
      simp only [step, if_neg hg]
      exact ⟨fun hx => absurd hx (by simp [hs]), fun _ => hs⟩
  | settle =>
    cases hf : s.inFlight with
    | nil => simpa [step, hf] using ⟨h1, h2⟩
    | cons installed rest =>
      simp only [step, hf, finishRound]
      split
      · exact ⟨fun _ => ⟨rfl, rfl⟩, fun hx => by simp at hx⟩
      · exact ⟨fun hx => ⟨(h1 hx).1, rfl⟩, fun hx => by simp at hx⟩
  | dismissClick =>
    by_cases hg : P.displayMode ≠ DisplayMode.block
    · simp only [step, if_pos hg]
      exact ⟨fun hx => by simp at hx, fun _ => rfl⟩
    · simpa [step, hg] using ⟨h1, h2⟩
  | autoHide =>
    by_cases hg : (autoHideEffect P.autoHideDuration s.showMessage
        P.displayMode).isSome = true
    · simp only [step, if_pos hg]
      exact ⟨fun hx => by simp at hx, fun _ => rfl⟩
    · simpa [step, hg] using ⟨h1, h2⟩

/-- The invariant holds along every run. -/
theorem inv_run (P : Props) (evs : List Ev) (s : MState) (h : ReachInv s) :
    ReachInv (run P s evs) := by
  induction evs generalizing s with
  | nil => exact h
  | cons ev rest ih => exact ih (step P s ev) (inv_step P s ev h)

/-- On invariant states the code's render-nothing test and the spec's
render-nothing wording agree. -/
theorem rendersNothing_eq_spec (P : Props) (s : MState) (h : ReachInv s) :
    rendersNothing P s = specRendersNothing P s := by
  obtain ⟨h1, h2⟩ := h
  cases hs : s.showMessage with
  | false => simp [rendersNothing, specRendersNothing, hs]
  | true =>
    have hc : s.checkingExtensions = false := by
      cases hx : s.checkingExtensions
      · rfl
      · exact absurd (h2 hx) (by simp [hs])
    have hev : s.everCompleted = true := (h1 hs).2
    simp [rendersNothing, specRendersNothing, hs, hc, hev]

/-- C8 — Rendering decision: along every execution of the component, the
code renders nothing (early return at lines 229-235, `silent` case at lines
300-302) exactly when the specification says so: when `showMessage` is
false, or a round is in flight and none has ever completed, or the current
unwanted-match list is empty, or the display mode is `silent`. -/
theorem c8_render_decision (P : Props) (evs : List Ev) :
    rendersNothing P (run P initialState evs)
      = specRendersNothing P (run P initialState evs) :=
  rendersNothing_eq_spec P (run P initialState evs)
    (inv_run P evs initialState inv_initialState)

/-! ## Block-mode immunity -/

/-- In block mode the auto-hide effect never schedules a hide, whatever the
duration and visibility. -/
theorem autoHideEffect_block (d : Option Nat) (v : Bool) :
    autoHideEffect d v DisplayMode.block = none := by
  cases d <;> simp [autoHideEffect]

/-- In block mode no single transition can clear a showing message. -/
theorem step_block_preserves_show (P : Props) (s : MState) (ev : Ev)
    (hP : P.displayMode = DisplayMode.block) (hs : s.showMessage = true) :
    (step P s ev).showMessage = true := by
  cases ev with
  | fire w installed =>
    by_cases hg : w = false ∨ s.hasShownMessage = true
    · simpa [step, hg] using hs
    · simpa [step, hg] using hs
  | settle =>
    cases hf : s.inFlight with
    | nil => simpa [step, hf] using hs
    | cons installed rest =>
      simp only [step, hf, finishRound]
      split
      · rfl
      · exact hs
  | dismissClick =>
    have hg : ¬ P.displayMode ≠ DisplayMode.block := by simp [hP]
    simpa [step, hg] using hs
  | autoHide =>
    have hg : (autoHideEffect P.autoHideDuration s.showMessage
        P.displayMode).isSome = false := by
      rw [hP, autoHideEffect_block]
      rfl
    simpa [step, hg] using hs

/-- C5 — Block-mode immunity: when the display mode is `block`, a showing
message stays showing across every sequence of events (interval firings,
round completions, dismiss clicks, auto-hide firings); the auto-hide effect
never arms a timer in block mode regardless of `autoHideDuration`; a dismiss
click leaves the state untouched; and the close button is not rendered at
all (line 268). -/
theorem c5_block_immunity (P : Props) (s : MState) (evs : List Ev)
    (d : Option Nat) (v : Bool) (hP : P.displayMode = DisplayMode.block)
    (hs : s.showMessage = true) :
    (run P s evs).showMessage = true
    ∧ autoHideEffect d v DisplayMode.block = none
    ∧ step P s Ev.dismissClick = s
    ∧ dismissButtonShown DisplayMode.block = false := by
  refine ⟨?_, autoHideEffect_block d v, ?_, rfl⟩
  · induction evs generalizing s with
    | nil => exact hs
    | cons ev rest ih =>
      exact ih (step P s ev) (step_block_preserves_show P s ev hP hs)
  · have hg : ¬ P.displayMode ≠ DisplayMode.block := by simp [hP]
    simp [step, hg]

/-- A concrete block-mode configuration: `displayMode="block"`,
`autoHideDuration=500`, with the catalog's extension unwanted. -/
def blockProps : Props :=
  { displayMode := DisplayMode.block
    unwantedExtensions := ["PayPal Honey"]
    autoHideDuration := some 500 }

/-- A state in which the warning is showing: the detection round found the
catalog's extension and the notification latch is set. -/
def shownState : MState :=
  { checkingExtensions := false
    installedExtensions := ["PayPal Honey"]
    showMessage := true
    hasShownMessage := true
    inFlight := []
    notifications := [["PayPal Honey"]]
    everCompleted := true }

/-- Witness for C5: with `displayMode="block"` and `autoHideDuration=500`,
the showing state survives a dismiss click followed by an auto-hide firing,
and the dismiss click is a no-op. -/
theorem c5_block_immunity_witness :
    (run blockProps shownState [Ev.dismissClick, Ev.autoHide]).showMessage = true
    ∧ autoHideEffect (some 500) true DisplayMode.block = none
    ∧ step blockProps shownState Ev.dismissClick = shownState
    ∧ dismissButtonShown DisplayMode.block = false :=
  c5_block_immunity blockProps shownState [Ev.dismissClick, Ev.autoHide]
    (some 500) true rfl rfl

/-! ## Overlapping rounds: the entry guard and its consequences -/

/-- Once the notification latch is set, an invocation of
`checkAllExtensions` is a no-op: the entry guard at line 180 returns before
any probe is issued. -/
theorem step_fire_latched (P : Props) (s : MState) (w : Bool)
    (r : List String) (h : s.hasShownMessage = true) :
    step P s (Ev.fire w r) = s := by
  simp [step, h]

/-- Before the latch is set and with a window present, an invocation of
`checkAllExtensions` always passes the entry guard: it raises the checking
flag and puts a new round in flight, regardless of the checking flag's
current value. -/
theorem step_fire_unlatched (P : Props) (s : MState) (w : Bool)
    (r : List String) (h : s.hasShownMessage = false) (hw : w = true) :
    step P s (Ev.fire w r)
      = { s with checkingExtensions := true, inFlight := s.inFlight ++ [r] } := by
  have hg : ¬ (w = false ∨ s.hasShownMessage = true) := by
    rintro (hx | hx)
    · rw [hw] at hx; cases hx
    · rw [h] at hx; cases hx
  simp [step, hg]

/-- A configuration used in the concrete executions below: `alert` mode with
the catalog's extension unwanted and no auto-hide. -/
def demoProps : Props :=
  { displayMode := DisplayMode.alert
    unwantedExtensions := ["PayPal Honey"]
    autoHideDuration := none }

/-- An execution in which the recurring interval fires again before the
first round's probes settle (the probe is slower than `checkInterval`), and
both rounds detect the unwanted extension. -/
def overlappingDetections : List Ev :=
  [Ev.fire true ["PayPal Honey"], Ev.fire true ["PayPal Honey"],
   Ev.settle, Ev.settle]

/-- C1 — At-most-once notification fails on the code: in the execution where
the interval fires a second time while the first round is still in flight
and both rounds detect the unwanted extension, BOTH rounds run the
notification branch of lines 194-200, so `onDetect` is invoked twice and the
visibility transition from a detection event happens twice — the entry guard
at line 180 is checked only before the `await`, and the branch at line 194
does not re-check `hasShownMessage` after it. -/
theorem c1_double_notification_on_overlap :
    (run demoProps initialState overlappingDetections).notifications
      = [["PayPal Honey"], ["PayPal Honey"]]
    ∧ (run demoProps initialState
        [Ev.fire true ["PayPal Honey"], Ev.fire true ["PayPal Honey"],
         Ev.settle]).hasShownMessage = true := by
  exact ⟨by decide, by decide⟩

/-- C2 — Round re-entrancy fails on the code: after one invocation of
`checkAllExtensions` the checking flag is up, yet a second invocation before
the first settles still passes the entry guard (line 180 tests only `window`
and `hasShownMessage`, never `checkingExtensions`), so two rounds are in
flight at once. -/
theorem c2_overlap_counterexample :
    (run demoProps initialState
        [Ev.fire true ["PayPal Honey"]]).checkingExtensions = true
    ∧ (run demoProps initialState
        [Ev.fire true ["PayPal Honey"], Ev.fire true []]).inFlight.length = 2 := by
  exact ⟨by decide, by decide⟩

/-- C2 (amended) — The real entry guard: an invocation of
`checkAllExtensions` is dropped exactly when the notification latch
`hasShownMessage` is already set (or `window` is undefined); before the
latch is set, an invocation with a window present always starts a new round,
even while another round is in flight. -/
theorem c2_entry_guard (P : Props) (s : MState) (w : Bool) (r : List String) :
    (s.hasShownMessage = true → step P s (Ev.fire w r) = s)
    ∧ (s.hasShownMessage = false → w = true →
        step P s (Ev.fire w r)
          = { s with checkingExtensions := true,
                     inFlight := s.inFlight ++ [r] }) :=
  ⟨fun h => step_fire_latched P s w r h,
   fun h hw => step_fire_unlatched P s w r h hw⟩

/-- Witness for the amended C2 at concrete inputs: a latched state drops the
firing, the initial state starts a round. -/
theorem c2_entry_guard_witness :
    step demoProps shownState (Ev.fire true []) = shownState
    ∧ step demoProps initialState (Ev.fire true [])
      = { initialState with checkingExtensions := true, inFlight := [[]] } :=
  ⟨(c2_entry_guard demoProps shownState true []).1 rfl,
   (c2_entry_guard demoProps initialState true []).2 rfl rfl⟩

/-! ## Behaviour after the notification latch -/

/-- From a latched, quiescent state (no round in flight), a single event
changes neither the stored detection result, nor the notification log, nor
the latch, and leaves no round in flight: firings are dropped at the guard,
there is no `await` left to settle, and dismissal events only touch
`showMessage`. -/
theorem step_quiescent (P : Props) (s : MState) (ev : Ev)
    (h1 : s.hasShownMessage = true) (h2 : s.inFlight = []) :
    (step P s ev).installedExtensions = s.installedExtensions
    ∧ (step P s ev).notifications = s.notifications
    ∧ (step P s ev).hasShownMessage = true
    ∧ (step P s ev).inFlight = [] := by
  cases ev with
  | fire w installed =>
    rw [step_fire_latched P s w installed h1]
    exact ⟨rfl, rfl, h1, h2⟩
  | settle =>
    have hstep : step P s Ev.settle = s := by simp only [step, h2]
    rw [hstep]
    exact ⟨rfl, rfl, h1, h2⟩
  | dismissClick =>
    by_cases hg : P.displayMode ≠ DisplayMode.block
    · have hstep : step P s Ev.dismissClick = { s with showMessage := false } := by
        simp only [step, if_pos hg]
      rw [hstep]
      exact ⟨rfl, rfl, h1, h2⟩
    · have hstep : step P s Ev.dismissClick = s := by
        simp only [step, if_neg hg]
      rw [hstep]
      exact ⟨rfl, rfl, h1, h2⟩
  | autoHide =>
    by_cases hg : (autoHideEffect P.autoHideDuration s.showMessage
        P.displayMode).isSome = true
    · have hstep : step P s Ev.autoHide = { s with showMessage := false } := by
        simp only [step, if_pos hg]
      rw [hstep]
      exact ⟨rfl, rfl, h1, h2⟩
    · have hstep : step P s Ev.autoHide = s := by
        simp only [step, if_neg hg]
      rw [hstep]
      exact ⟨rfl, rfl, h1, h2⟩

/-- From a latched, quiescent state, every whole run preserves the stored
detection result, notification log, latch and quiescence. -/
theorem run_quiescent (P : Props) (evs : List Ev) : ∀ s : MState,
    s.hasShownMessage = true → s.inFlight = [] →
    (run P s evs).installedExtensions = s.installedExtensions
    ∧ (run P s evs).notifications = s.notifications
    ∧ (run P s evs).hasShownMessage = true
    ∧ (run P s evs).inFlight = [] := by
  induction evs with
  | nil => exact fun s h1 h2 => ⟨rfl, rfl, h1, h2⟩
  | cons ev rest ih =>
    intro s h1 h2
    obtain ⟨q1, q2, q3, q4⟩ := step_quiescent P s ev h1 h2
    obtain ⟨r1, r2, r3, r4⟩ := ih (step P s ev) q3 q4
    exact ⟨r1.trans q1, r2.trans q2, r3, r4⟩

/-- An execution in which the interval fires again while the first round is
in flight, the first round detects the unwanted extension, and the second
round — still probing when the notification happens — later settles having
found nothing. -/
def staleRoundPrefix : List Ev :=
  [Ev.fire true ["PayPal Honey"], Ev.fire true [], Ev.settle]

/-- C10 — The frozen-display claim fails on the code: after the first settle
the latch is set and the stored result is `["PayPal Honey"]`, but the round
that was already in flight at that moment still settles afterwards and
overwrites `installedExtensions` with its own (empty) result, emptying the
displayed match list — the guard at line 180 stops new rounds, not ones
already past it. -/
theorem c10_inflight_overwrite_counterexample :
    (run demoProps initialState staleRoundPrefix).hasShownMessage = true
    ∧ (run demoProps initialState staleRoundPrefix).installedExtensions
        = ["PayPal Honey"]
    ∧ (run demoProps initialState
        (staleRoundPrefix ++ [Ev.settle])).installedExtensions = []
    ∧ currentMatches demoProps
        (run demoProps initialState (staleRoundPrefix ++ [Ev.settle])) = [] := by
  exact ⟨by decide, by decide, by decide, by decide⟩

/-- C10 (amended) — Once `hasShownMessage` is true, every subsequent
invocation of the round runner returns at the entry guard before probing;
and if additionally no round is still in flight at that point, the stored
detection result and the notification log are never updated again for the
rest of the lifetime. A round already in flight when the latch is set is the
one exception: its settling still overwrites the stored result. -/
theorem c10_frozen_after_latch_when_quiescent (P : Props) (s : MState)
    (evs : List Ev) (w : Bool) (r : List String)
    (h1 : s.hasShownMessage = true) :
    step P s (Ev.fire w r) = s
    ∧ (s.inFlight = [] →
        (run P s evs).installedExtensions = s.installedExtensions
        ∧ (run P s evs).notifications = s.notifications
        ∧ (run P s evs).hasShownMessage = true) := by
  refine ⟨step_fire_latched P s w r h1, fun h2 => ?_⟩
  obtain ⟨q1, q2, q3, _⟩ := run_quiescent P evs s h1 h2
  exact ⟨q1, q2, q3⟩

/-- Witness for the amended C10: from the latched quiescent `shownState`,
a firing is dropped and a run of further events preserves the stored result
and the notification log. -/
theorem c10_frozen_after_latch_when_quiescent_witness :
    step demoProps shownState (Ev.fire true ["PayPal Honey"]) = shownState
    ∧ (run demoProps shownState
        [Ev.fire true [], Ev.dismissClick, Ev.settle]).installedExtensions
        = ["PayPal Honey"] := by
  have h := c10_frozen_after_latch_when_quiescent demoProps shownState
    [Ev.fire true [], Ev.dismissClick, Ev.settle] true ["PayPal Honey"] rfl
  exact ⟨h.1, (h.2 rfl).1⟩

/-! ## Auto-hide timer lifecycle (source lines 213-221) -/

/-- State of the auto-hide `useEffect` and its `setTimeout`: the current
`autoHideDuration` prop, the current `showMessage` value, the delay of the
currently scheduled hide timeout if any, and whether the component is still
mounted. -/
structure HideTimer where
  duration : Option Nat
  visible : Bool
  pendingHide : Option Nat
  mounted : Bool
deriving DecidableEq, Repr

/-- Events seen by the auto-hide effect. `setVisible b` and `setDuration d`
are re-renders that change one of the effect's dependencies
(`[autoHideDuration, showMessage, displayMode]`): React first runs the
previous effect's cleanup (`clearTimeout`, line 219) and then the effect body
again, so the pending timeout is wholly replaced. `fireTimer` is the
scheduled timeout elapsing: its callback sets `showMessage` to false (lines
216-218), and the resulting dependency change re-runs the effect. `unmount`
tears the component down, running only the cleanup. -/
inductive HEv where
  | setVisible : Bool → HEv
  | setDuration : Option Nat → HEv
  | fireTimer : HEv
  | unmount : HEv
deriving DecidableEq, Repr

/-- One transition of the auto-hide timer lifecycle. After unmount no render
or effect runs, and the cleanup has already cleared any pending timeout, so
nothing can change. -/
def hStep (mode : DisplayMode) (s : HideTimer) : HEv → HideTimer
  | HEv.setVisible b =>
    if s.mounted = true then
      { s with visible := b, pendingHide := autoHideEffect s.duration b mode }
    else s
  | HEv.setDuration d =>
    if s.mounted = true then
      { s with duration := d, pendingHide := autoHideEffect d s.visible mode }
    else s
  | HEv.fireTimer =>
    match s.pendingHide with
    | none => s
    | some _ =>
      { s with visible := false,
               pendingHide := autoHideEffect s.duration false mode }
  | HEv.unmount => { s with mounted := false, pendingHide := none }

/-- A run of the auto-hide timer lifecycle. -/
def hRun (mode : DisplayMode) (s : HideTimer) (evs : List HEv) : HideTimer :=
  evs.foldl (hStep mode) s

/-- The effect never schedules a hide while the message is hidden. -/
theorem autoHideEffect_invisible (d : Option Nat) (mode : DisplayMode) :
    autoHideEffect d false mode = none := by
  cases d <;> simp [autoHideEffect]

/-- An unmounted timer state with no pending timeout is a fixpoint of every
event. -/
theorem hStep_unmounted (mode : DisplayMode) (s : HideTimer) (ev : HEv)
    (hm : s.mounted = false) (hp : s.pendingHide = none) :
    hStep mode s ev = s := by
  cases ev with
  | setVisible b => simp [hStep, hm]
  | setDuration d => simp [hStep, hm]
  | fireTimer => simp only [hStep, hp]
  | unmount =>
    cases s with
    | mk d v p m =>
      simp only [hStep]
      simp at hm hp
      rw [hm, hp]

/-- An unmounted timer state with no pending timeout never changes again. -/
theorem hRun_unmounted (mode : DisplayMode) (evs : List HEv) :
    ∀ s : HideTimer, s.mounted = false → s.pendingHide = none →
    hRun mode s evs = s := by
  induction evs with
  | nil => exact fun s _ _ => rfl
  | cons ev rest ih =>
    intro s hm hp
    have hstep := hStep_unmounted mode s ev hm hp
    show hRun mode (hStep mode s ev) rest = s
    rw [hstep]
    exact ih s hm hp

/-- C6 (amended) — Auto-hide lifecycle, for a positive `autoHideDuration`:
in a non-block mode, when `showMessage` becomes true a hide is scheduled
with exactly that duration; when the scheduled timeout fires, `showMessage`
becomes false and no hide remains scheduled; any re-render that changes the
visibility or the duration replaces the scheduled hide with what the new
dependencies dictate (the old timeout is cleared by the effect cleanup, so
no stale timer survives); and teardown clears the pending hide, after which
no event whatsoever mutates the state. The positivity proviso is forced by
the code: `autoHideDuration && ...` at line 214 treats the number 0 as
falsy. -/
theorem c6_auto_hide_lifecycle (mode : DisplayMode) (s : HideTimer)
    (d : Nat) (evs : List HEv) (hm : mode ≠ DisplayMode.block)
    (hd : d ≠ 0) (hmt : s.mounted = true) (hdur : s.duration = some d) :
    (hStep mode s (HEv.setVisible true)).pendingHide = some d
    ∧ (∀ d0 : Nat, s.pendingHide = some d0 →
        (hStep mode s HEv.fireTimer).visible = false
        ∧ (hStep mode s HEv.fireTimer).pendingHide = none)
    ∧ (∀ b : Bool, (hStep mode s (HEv.setVisible b)).pendingHide
        = autoHideEffect s.duration b mode)
    ∧ (∀ dn : Option Nat, (hStep mode s (HEv.setDuration dn)).pendingHide
        = autoHideEffect dn s.visible mode)
    ∧ (hStep mode s HEv.unmount).pendingHide = none
    ∧ hRun mode (hStep mode s HEv.unmount) evs = hStep mode s HEv.unmount := by
  refine ⟨?_, ?_, ?_, ?_, rfl, ?_⟩
  · simp [hStep, hmt, hdur, autoHideEffect, hd, hm]
  · intro d0 hp
    have hstep : hStep mode s HEv.fireTimer
        = { s with visible := false,
                   pendingHide := autoHideEffect s.duration false mode } := by
      simp only [hStep, hp]
    rw [hstep]
    exact ⟨rfl, autoHideEffect_invisible s.duration mode⟩
  · intro b
    simp [hStep, hmt]
  · intro dn
    simp [hStep, hmt]
  · exact hRun_unmounted mode evs (hStep mode s HEv.unmount) rfl rfl

/-- Witness for the amended C6: `alert` mode, duration 500, mounted and not
yet visible; becoming visible schedules a 500 ms hide, and from a state with
a pending hide the firing hides the message. -/
theorem c6_auto_hide_lifecycle_witness :
    (hStep DisplayMode.alert
        { duration := some 500, visible := false, pendingHide := none,
          mounted := true } (HEv.setVisible true)).pendingHide = some 500
    ∧ (hStep DisplayMode.alert
        { duration := some 500, visible := true, pendingHide := some 500,
          mounted := true } HEv.fireTimer).visible = false := by
  have h1 := c6_auto_hide_lifecycle DisplayMode.alert
    { duration := some 500, visible := false, pendingHide := none,
      mounted := true } 500 [] (by decide) (by decide) rfl rfl
  have h2 := c6_auto_hide_lifecycle DisplayMode.alert
    { duration := some 500, visible := true, pendingHide := some 500,
      mounted := true } 500 [] (by decide) (by decide) rfl rfl
  exact ⟨h1.1, (h2.2.1 500 rfl).1⟩

/-- C6 — The auto-hide claim fails as stated at `autoHideDuration = 0`: with
the duration prop set to 0 in `alert` mode, becoming visible schedules no
hide at all (0 is falsy in the guard at line 214), and the resulting visible
state is a fixpoint of timer firing — `isVisible` never becomes false
without further input, instead of becoming false after the stated duration. -/
theorem c6_zero_duration_counterexample :
    hStep DisplayMode.alert
        { duration := some 0, visible := false, pendingHide := none,
          mounted := true } (HEv.setVisible true)
      = { duration := some 0, visible := true, pendingHide := none,
          mounted := true }
    ∧ hStep DisplayMode.alert
        { duration := some 0, visible := true, pendingHide := none,
          mounted := true } HEv.fireTimer
      = { duration := some 0, visible := true, pendingHide := none,
          mounted := true } := by
  exact ⟨by decide, by decide⟩
